import Mathlib

/-!
Verification of the S3 transfer-client binding (`awscrt/s3_client.py`).

The Python classes `S3Client` and `S3Request` are shallowly embedded as Lean
structures; their methods become pure state-transforming functions.  The
`concurrent.futures.Future` objects used for the completion and shutdown
signals are embedded with their Python semantics: resolving an already
resolved future raises `InvalidStateError` and leaves the future unchanged.
Components of the repository that are not present under `src/` (the part
scheduler inside the native engine, the `cancel` operation and the
`on_progress` callback of `awscrt/s3.py`, exercised by `src/test/test_s3.py`)
are modelled from the specification and marked as such in their doc comments.
-/

/-- Python values that the embedded code stores into a future's result slot:
`None` (the client shutdown future) or a string (the request futures are
resolved with the literal string `what?`). -/
inductive PyVal where
  | pynone
  | pystr (s : String)
deriving DecidableEq

/-- Embedding of `_awscrt.exceptions` error objects: an AWS error is
identified by its integer error code (`from_code` is injective; the Python
side treats the object as opaque). -/
structure AwsException where
  code : Nat
deriving DecidableEq

/-- Embedding of `_awscrt.exceptions.from_code`. -/
def AwsException.from_code (c : Nat) : AwsException := ⟨c⟩

/-- The exception `concurrent.futures.Future` raises when `set_result` or
`set_exception` is called on a future that is already resolved. -/
inductive PyErr where
  | invalidStateError
deriving DecidableEq

/-- State of a `concurrent.futures.Future`: pending, resolved with a result,
or resolved with an exception. -/
inductive FutureState where
  | pending
  | result (v : PyVal)
  | exn (e : AwsException)
deriving DecidableEq

/-- Python `Future.set_result`: resolves a pending future; on an already
resolved future it raises `InvalidStateError` and the future is unchanged. -/
def FutureState.set_result (f : FutureState) (v : PyVal) :
    FutureState × Option PyErr :=
  match f with
  | FutureState.pending => (FutureState.result v, Option.none)
  | f => (f, Option.some PyErr.invalidStateError)

/-- Python `Future.set_exception`: resolves a pending future with an
exception; on an already resolved future it raises `InvalidStateError` and
the future is unchanged. -/
def FutureState.set_exception (f : FutureState) (e : AwsException) :
    FutureState × Option PyErr :=
  match f with
  | FutureState.pending => (FutureState.exn e, Option.none)
  | f => (f, Option.some PyErr.invalidStateError)

/-- Whether a future has been resolved (with a result or an exception). -/
def FutureState.resolved : FutureState → Bool
  | FutureState.pending => false
  | _ => true

/-- External collaborator `awscrt.io.ClientBootstrap`, modelled at its
interface boundary as an opaque token. -/
structure ClientBootstrap where
  id : Nat
deriving DecidableEq

/-- External collaborator `awscrt.io.TlsConnectionOptions`, modelled at its
interface boundary as an opaque token. -/
structure TlsConnectionOptions where
  id : Nat
deriving DecidableEq

/-- External collaborator `awscrt.auth.AwsCredentialsProvider`: either the
default-chain provider built from a bootstrap (`new_default_chain`) or some
caller-supplied provider, opaque to this module. -/
inductive AwsCredentialsProvider where
  | new_default_chain (bootstrap : ClientBootstrap)
  | supplied (id : Nat)
deriving DecidableEq

/-- External collaborator `awscrt.http.HttpRequest`, modelled at its
interface boundary by the fields the source constructs it with. -/
structure HttpRequest where
  method : String
  path : String
  headers : List (String × String)
deriving DecidableEq

/-- The `AwsS3RequestType` IntEnum of `awscrt/s3_client.py`. -/
inductive AwsS3RequestType where
  | DEFAULT
  | GET_OBJECT
  | PUT_OBJECT
deriving DecidableEq

/-- Integer value of each `AwsS3RequestType` member, as in the source. -/
def AwsS3RequestType.toNat : AwsS3RequestType → Nat
  | AwsS3RequestType.DEFAULT => 0
  | AwsS3RequestType.GET_OBJECT => 1
  | AwsS3RequestType.PUT_OBJECT => 2

/-- The arguments `S3Client.__init__` forwards to the native constructor
`_awscrt.s3_client_new`, in source order (the `on_shutdown` closure is the
client's shutdown behaviour, embedded separately as `s3ClientOnShutdown`).
Optional integer and float options are `Option`-typed because the source's
assert statements accept `None` as well as a number; floats carry no
arithmetic in this module and are embedded as rationals. -/
structure S3ClientBinding where
  bootstrap : ClientBootstrap
  credential_provider : AwsCredentialsProvider
  tls_connection_options : Option TlsConnectionOptions
  region : String
  part_size : Option Int
  connection_timeout_ms : Option Int
  throughput_target_gbps : Option Rat
  throughput_per_vip_gbps : Option Rat
  num_connections_per_vip : Option Int
deriving DecidableEq

/-- State of a Python `S3Client` object: its single slot `shutdown_future`
plus the native binding arguments it was created with. -/
structure S3ClientState where
  shutdown_future : FutureState
  binding : S3ClientBinding
deriving DecidableEq

/-- Error type for the configuration-validation failure the specification
ascribes to client creation.  The source of `S3Client.__init__` has no code
path that raises it (its only checks are the isinstance asserts, which hold
by typing in this embedding); the error channel exists so that the
specification's claim is expressible against the embedded constructor. -/
inductive ConfigurationError where
  | invalidConfig
deriving DecidableEq

/-- Embedding of `S3Client.__init__` from `awscrt/s3_client.py`: after the
isinstance asserts (discharged by the argument types), a falsy
`credential_provider` is replaced by the default chain built from the
bootstrap, a fresh pending shutdown future is stored, and all arguments are
forwarded unchanged to `_awscrt.s3_client_new`.  No range validation is
performed by the source, so no argument value can reach the error channel. -/
def s3ClientInit (bootstrap : ClientBootstrap) (region : String)
    (credential_provider : Option AwsCredentialsProvider)
    (tls_connection_options : Option TlsConnectionOptions)
    (part_size : Option Int) (connection_timeout_ms : Option Int)
    (throughput_target_gbps : Option Rat)
    (throughput_per_vip_gbps : Option Rat)
    (num_connections_per_vip : Option Int) :
    Except ConfigurationError S3ClientState :=
  let cp : AwsCredentialsProvider :=
    match credential_provider with
    | Option.none => AwsCredentialsProvider.new_default_chain bootstrap
    | Option.some p => p
  Except.ok
    { shutdown_future := FutureState.pending
      binding :=
        { bootstrap := bootstrap
          credential_provider := cp
          tls_connection_options := tls_connection_options
          region := region
          part_size := part_size
          connection_timeout_ms := connection_timeout_ms
          throughput_target_gbps := throughput_target_gbps
          throughput_per_vip_gbps := throughput_per_vip_gbps
          num_connections_per_vip := num_connections_per_vip } }

/-- Embedding of the `on_shutdown` closure defined inside
`S3Client.__init__`: it calls `shutdown_future.set_result(None)`. -/
def s3ClientOnShutdown (f : FutureState) : FutureState × Option PyErr :=
  f.set_result PyVal.pynone

/-- The attribute names defined in the class body of `S3Client` in
`awscrt/s3_client.py`: the single slot of `__slots__`, the constructor, and
`make_request`.  The base class `NativeResource` (in `awscrt/__init__.py`,
not under `src/`) is a resource-tracking base; the repository's own tests
trigger client shutdown by releasing the object (`del s3_client`), never
through a method call. -/
def s3ClientClassAttributes : List String :=
  ["shutdown_future", "__init__", "make_request"]

/-- The attribute names defined in the class body of `S3Request` in
`awscrt/s3_client.py`: the five slots of `__slots__`, the constructor, the
four native-invoked callbacks and the two future properties. -/
def s3RequestClassAttributes : List String :=
  ["_on_headers_cb", "_on_body_cb", "_finished_future", "_shutdown_future",
   "_client", "__init__", "_on_headers", "_on_body", "_on_finish",
   "_on_shutdown", "finished_future", "shutdown_future"]

/-- State of a Python `S3Request` object: exactly the five slots of the
source class.  Python callables are opaque here, so a stored callback is an
`Option Nat` identity token (`None` encodes an omitted callback, matching
the source's `callable(cb) or cb is None` assert). -/
structure S3RequestState where
  on_headers_cb : Option Nat
  on_body_cb : Option Nat
  finished_future : FutureState
  shutdown_future : FutureState
  client : S3ClientState
deriving DecidableEq

/-- Embedding of `S3Request.__init__`: stores the two optional callbacks and
the client (kept so the client stays alive until the request shuts down),
and creates the two fresh pending futures; the native meta-request creation
call receives the four bound callbacks embedded below. -/
def s3RequestInit (client : S3ClientState) (request : HttpRequest)
    (type : AwsS3RequestType) (on_headers : Option Nat)
    (on_body : Option Nat) : S3RequestState :=
  { on_headers_cb := on_headers
    on_body_cb := on_body
    finished_future := FutureState.pending
    shutdown_future := FutureState.pending
    client := client }

/-- Embedding of `S3Client.make_request`: constructs and returns an
`S3Request` on this client with the given request, type and callbacks. -/
def s3ClientMakeRequest (self : S3ClientState) (request : HttpRequest)
    (type : AwsS3RequestType) (on_headers : Option Nat)
    (on_body : Option Nat) : S3RequestState :=
  s3RequestInit self request type on_headers on_body

/-- A user-visible callback invocation performed by the binding, recording
which stored callback object was called and with which arguments; `terminal`
records the resolution of the finished future (the terminal signal). -/
inductive UserInvocation where
  | headers (cb : Nat) (status_code : Nat) (headers : List (String × String))
  | body (cb : Nat) (chunk : List Nat)
  | progress (cb : Nat) (progress : Nat)
  | terminal (error_code : Nat)
deriving DecidableEq

/-- Embedding of `S3Request._on_headers`: if a user callback was supplied it
is invoked with the status code and headers, otherwise the event is
discarded; the object state is not modified. -/
def S3Request.on_headers (s : S3RequestState) (status_code : Nat)
    (headers : List (String × String)) : List UserInvocation :=
  match s.on_headers_cb with
  | Option.some cb => [UserInvocation.headers cb status_code headers]
  | Option.none => []

/-- Embedding of `S3Request._on_body`: if a user callback was supplied it is
invoked with the chunk, otherwise the event is discarded; the object state
is not modified. -/
def S3Request.on_body (s : S3RequestState) (chunk : List Nat) :
    List UserInvocation :=
  match s.on_body_cb with
  | Option.some cb => [UserInvocation.body cb chunk]
  | Option.none => []

/-- Embedding of `S3Request._on_finish`: a truthy (nonzero) error code
resolves the finished future with the exception built by
`_awscrt.exceptions.from_code`, and a zero error code resolves it with the
success result string; a raised `InvalidStateError` is returned in the
second component. -/
def S3Request.on_finish (s : S3RequestState) (error_code : Nat) :
    S3RequestState × Option PyErr :=
  if error_code ≠ 0 then
    let p := s.finished_future.set_exception (AwsException.from_code error_code)
    ({ s with finished_future := p.1 }, p.2)
  else
    let p := s.finished_future.set_result (PyVal.pystr "what?")
    ({ s with finished_future := p.1 }, p.2)

/-- Embedding of `S3Request._on_shutdown`: resolves the shutdown future
(reached through the `shutdown_future` property) with the result string. -/
def S3Request.on_shutdown (s : S3RequestState) :
    S3RequestState × Option PyErr :=
  let p := s.shutdown_future.set_result (PyVal.pystr "what?")
  ({ s with shutdown_future := p.1 }, p.2)

/-- An event delivered by the native meta-request to the Python binding's
four registered callbacks. -/
inductive NativeEvent where
  | headersEvent (status_code : Nat) (headers : List (String × String))
  | bodyEvent (chunk : List Nat)
  | finishEvent (error_code : Nat)
  | shutdownEvent
deriving DecidableEq

/-- Whether a native event is the terminal (finish) event. -/
def NativeEvent.isFinish : NativeEvent → Bool
  | NativeEvent.finishEvent _ => true
  | _ => false

/-- State transition of an `S3Request` object on one native event, through
the embedded callbacks (`_on_headers` and `_on_body` do not modify the
object's state). -/
def processEvent (s : S3RequestState) : NativeEvent → S3RequestState
  | NativeEvent.headersEvent _ _ => s
  | NativeEvent.bodyEvent _ => s
  | NativeEvent.finishEvent c => (S3Request.on_finish s c).1
  | NativeEvent.shutdownEvent => (S3Request.on_shutdown s).1

/-- Number of times the terminal signal fires along a native event trace:
the number of steps at which the finished future passes from pending to
resolved. -/
def finishFireCount : S3RequestState → List NativeEvent → Nat
  | _, [] => 0
  | s, e :: t =>
    let s' := processEvent s e
    (if s.finished_future.resolved = false ∧
        s'.finished_future.resolved = true then 1 else 0) +
      finishFireCount s' t

/-- Modelled from the spec: the native meta-request (aws-c-s3, not under
`src/`) invokes the finish callback exactly once per meta-request,
regardless of how many parts the transfer was split into and of how parts
succeed or fail ("Exactly one terminal signal fires per Meta-Request,
exactly once, regardless of how many Parts existed"). -/
def wellFormedNativeTrace (t : List NativeEvent) : Prop :=
  t.countP NativeEvent.isFinish = 1

/-- Modelled from the spec: the terminal error code a cancelled meta-request
finishes with (the tests observe `AWS_ERROR_S3_CANCELED`); only its being
nonzero matters to this module. -/
def awsErrorS3Canceled : Nat := 1

/-- Modelled from the spec: the caller-visible state of a meta-request that
supports cancellation.  `S3Request.cancel` is implemented in `awscrt/s3.py`
and the native engine, neither of which is under `src/` (only their tests
are, e.g. `test_get_object_quick_cancel`); per the spec, cancellation sets a
monotonic cancellation flag, and the terminal signal is delivered through
the finished future. -/
structure MetaRequest where
  cancelled : Bool
  finished_future : FutureState
deriving DecidableEq

/-- Modelled from the spec: cancel sets the cancellation flag (monotonic,
"cancellation, once set, is terminal and monotonic"); it stops admission of
new parts in the native engine but performs no other state change on the
handle. -/
def MetaRequest.cancel (m : MetaRequest) : MetaRequest :=
  { m with cancelled := true }

/-- Modelled from the spec: once all affected parts settle, the engine of a
cancelled meta-request resolves the finished future with the CANCELED error
(through the once-only future semantics); an uncancelled request is left for
normal completion. -/
def MetaRequest.settle (m : MetaRequest) : MetaRequest × Option PyErr :=
  if m.cancelled then
    let p := m.finished_future.set_exception
      (AwsException.from_code awsErrorS3Canceled)
    ({ m with finished_future := p.1 }, p.2)
  else (m, Option.none)

/-- Modelled from the spec: number of parts the Part Scheduler plans for an
object of size `S` with part size `P` ("size 0 yields exactly one
zero-length Part"; otherwise the ranges of length at most `P` covering
`[0,S)`, i.e. `S/P` rounded up).  The scheduler itself lives in the native
engine (aws-c-s3), not under `src/`. -/
def numParts (S P : Nat) : Nat :=
  if S = 0 then 1 else (S + P - 1) / P

/-- Modelled from the spec: start offset of the part with sequence index
`i`. -/
def partStart (S P i : Nat) : Nat := i * P

/-- Modelled from the spec: exclusive end offset of the part with sequence
index `i` (capped at the object size). -/
def partEnd (S P i : Nat) : Nat := min ((i + 1) * P) S

/-- Modelled from the spec: the ordered sequence of byte ranges the Part
Scheduler plans for an object of size `S` with part size `P`. -/
def planParts (S P : Nat) : List (Nat × Nat) :=
  (List.range (numParts S P)).map (fun i => (partStart S P i, partEnd S P i))

/-- An event of the Result-Reporting interface of the spec (headers, body
chunk, progress bytes, terminal). -/
inductive ReportEvent where
  | headersEvent (status_code : Nat) (headers : List (String × String))
  | bodyEvent (chunk : List Nat)
  | progressEvent (progress : Nat)
  | finishEvent (error_code : Nat)
deriving DecidableEq

/-- Whether a report event is the header event. -/
def ReportEvent.isHeaders : ReportEvent → Bool
  | ReportEvent.headersEvent _ _ => true
  | _ => false

/-- Whether a report event is the terminal event. -/
def ReportEvent.isFinish : ReportEvent → Bool
  | ReportEvent.finishEvent _ => true
  | _ => false

/-- Position of each event kind in the delivery ordering contract of the
spec: header, then body chunks, then progress, then terminal. -/
def ReportEvent.rank : ReportEvent → Nat
  | ReportEvent.headersEvent _ _ => 0
  | ReportEvent.bodyEvent _ => 1
  | ReportEvent.progressEvent _ => 2
  | ReportEvent.finishEvent _ => 3

/-- Position of each recorded invocation in the delivery ordering
contract. -/
def UserInvocation.rank : UserInvocation → Nat
  | UserInvocation.headers _ _ _ => 0
  | UserInvocation.body _ _ => 1
  | UserInvocation.progress _ _ => 2
  | UserInvocation.terminal _ => 3

/-- The Result-Reporting capability of the spec: three independently
optional callbacks.  `on_headers` and `on_body` are the two optional
callbacks of `S3Client.make_request` in `src/awscrt/s3_client.py`;
`on_progress` is modelled from the spec (it is accepted by `make_request` of
`awscrt/s3.py`, which is not under `src/`; the repository's tests pass it). -/
structure ResultReportingCallbacks where
  on_headers : Option Nat
  on_body : Option Nat
  on_progress : Option Nat
deriving DecidableEq

/-- The invocation a given event produces under a given callback
configuration: an omitted callback discards its event, the terminal event
always resolves the finished future. -/
def eventInvocation (cbs : ResultReportingCallbacks) :
    ReportEvent → Option UserInvocation
  | ReportEvent.headersEvent sc hs =>
    cbs.on_headers.map (fun cb => UserInvocation.headers cb sc hs)
  | ReportEvent.bodyEvent ch =>
    cbs.on_body.map (fun cb => UserInvocation.body cb ch)
  | ReportEvent.progressEvent p =>
    cbs.on_progress.map (fun cb => UserInvocation.progress cb p)
  | ReportEvent.finishEvent c =>
    Option.some (UserInvocation.terminal c)

/-- Delivery of one report event: the three data events follow the guard
pattern of `S3Request._on_headers` and `_on_body` (invoke the callback if
one was stored, silently discard otherwise); the terminal event resolves the
finished future as `_on_finish` does. -/
def deliverEvent (cbs : ResultReportingCallbacks) (f : FutureState) :
    ReportEvent → FutureState × Option PyErr × List UserInvocation
  | ReportEvent.headersEvent sc hs =>
    (f, Option.none,
      match cbs.on_headers with
      | Option.some cb => [UserInvocation.headers cb sc hs]
      | Option.none => [])
  | ReportEvent.bodyEvent ch =>
    (f, Option.none,
      match cbs.on_body with
      | Option.some cb => [UserInvocation.body cb ch]
      | Option.none => [])
  | ReportEvent.progressEvent p =>
    (f, Option.none,
      match cbs.on_progress with
      | Option.some cb => [UserInvocation.progress cb p]
      | Option.none => [])
  | ReportEvent.finishEvent c =>
    if c ≠ 0 then
      let p := f.set_exception (AwsException.from_code c)
      (p.1, p.2, [UserInvocation.terminal c])
    else
      let p := f.set_result (PyVal.pystr "what?")
      (p.1, p.2, [UserInvocation.terminal c])

/-- Delivery of a whole event trace, collecting raised errors and performed
invocations in order. -/
def deliverTrace (cbs : ResultReportingCallbacks) (f : FutureState) :
    List ReportEvent → FutureState × List PyErr × List UserInvocation
  | [] => (f, [], [])
  | e :: t =>
    let r := deliverEvent cbs f e
    let rest := deliverTrace cbs r.1 t
    (rest.1, r.2.1.toList ++ rest.2.1, r.2.2 ++ rest.2.2)

/-- The delivery ordering contract of the spec for a meta-request's event
trace: events arrive in rank order (header, body chunks, progress,
terminal), with at most one header event and exactly one terminal event. -/
def ContractOrdered (t : List ReportEvent) : Prop :=
  List.Pairwise (fun a b => ReportEvent.rank a ≤ ReportEvent.rank b) t ∧
  t.countP ReportEvent.isHeaders ≤ 1 ∧
  t.countP ReportEvent.isFinish = 1

/-- What correct delivery means for a callback configuration and a trace:
no error is raised, the performed invocations are exactly the events whose
callback is present (plus the terminal resolution), in trace order, and the
delivered sequence itself respects the ordering contract's rank order. -/
def DeliverySpec (cbs : ResultReportingCallbacks) (t : List ReportEvent) :
    Prop :=
  (deliverTrace cbs FutureState.pending t).2.1 = [] ∧
  (deliverTrace cbs FutureState.pending t).2.2 =
    t.filterMap (eventInvocation cbs) ∧
  List.Pairwise (fun a b => UserInvocation.rank a ≤ UserInvocation.rank b)
    (deliverTrace cbs FutureState.pending t).2.2

/-- The partition property the spec ascribes to the Part Scheduler for an
object of size `S` and part size `P`: the planned ranges are exactly the
`numParts` ranges given by `partStart`/`partEnd`; they start at offset 0,
are contiguous in ascending order, end at `S`, each has length at most `P`,
the final one has length `S mod P` (or `P` when `P` divides `S` and
`S > 0`), and every offset below `S` lies in exactly one planned range. -/
def SchedulerSpec (S P : Nat) : Prop :=
  planParts S P =
    (List.range (numParts S P)).map
      (fun i => (partStart S P i, partEnd S P i)) ∧
  0 < numParts S P ∧
  partStart S P 0 = 0 ∧
  (∀ i, i + 1 < numParts S P → partEnd S P i = partStart S P (i + 1)) ∧
  partEnd S P (numParts S P - 1) = S ∧
  (∀ i, i < numParts S P → partStart S P i ≤ partEnd S P i) ∧
  (∀ i, i < numParts S P → partEnd S P i - partStart S P i ≤ P) ∧
  (partEnd S P (numParts S P - 1) - partStart S P (numParts S P - 1) =
    if S % P = 0 ∧ 0 < S then P else S % P) ∧
  (∀ x, x < S → ∃ i, i < numParts S P ∧
    partStart S P i ≤ x ∧ x < partEnd S P i ∧
    (∀ j, j < numParts S P → partStart S P j ≤ x → x < partEnd S P j →
      j = i))

/-- Number of times the client's shutdown-complete signal fires when the
`on_shutdown` closure is invoked `n` times in a row: the number of
invocations at which the shutdown future passes from pending to resolved. -/
def shutdownSignalCount : FutureState → Nat → Nat
  | _, 0 => 0
  | f, n + 1 =>
    let f' := (s3ClientOnShutdown f).1
    (if f.resolved = false ∧ f'.resolved = true then 1 else 0) +
      shutdownSignalCount f' n

/-- A concrete client state, used by the concrete-input theorems below. -/
def sampleClient : S3ClientState :=
  { shutdown_future := FutureState.pending
    binding :=
      { bootstrap := ⟨0⟩
        credential_provider := AwsCredentialsProvider.supplied 7
        tls_connection_options := Option.none
        region := "us-west-2"
        part_size := Option.some 5242880
        connection_timeout_ms := Option.some 0
        throughput_target_gbps := Option.some 0
        throughput_per_vip_gbps := Option.some 0
        num_connections_per_vip := Option.some 0 } }

/-- A concrete freshly constructed request state, used by the
concrete-input theorems below. -/
def sampleS3Request : S3RequestState :=
  s3ClientMakeRequest sampleClient
    ⟨"GET", "/get_object_test_10MB.txt", []⟩
    AwsS3RequestType.GET_OBJECT (Option.some 0) (Option.some 1)

/-- A concrete native event trace with exactly one finish event. -/
def sampleNativeTrace : List NativeEvent :=
  [NativeEvent.headersEvent 200 [("Content-Length", "12582912")],
   NativeEvent.bodyEvent [120, 121],
   NativeEvent.finishEvent 0,
   NativeEvent.shutdownEvent]

/-- A concrete callback configuration omitting `on_body`. -/
def sampleCallbacks : ResultReportingCallbacks :=
  { on_headers := Option.some 10
    on_body := Option.none
    on_progress := Option.some 12 }

/-- A concrete report event trace respecting the ordering contract. -/
def sampleReportTrace : List ReportEvent :=
  [ReportEvent.headersEvent 200 [("Content-Length", "2")],
   ReportEvent.bodyEvent [97, 98],
   ReportEvent.progressEvent 2,
   ReportEvent.finishEvent 0]

/-- Claim C1: every meta-request handle provides a `cancel()` operation
(modelled from the spec, since `awscrt/s3.py` is not under `src/` and only
its tests are), and cancelling twice produces the same terminal state as
cancelling once and does not fire the terminal signal a second time:
`cancel` is idempotent on the handle state, hence every downstream
observation — in particular the settled state and any error raised while
settling — coincides, and settling an already settled cancelled request
leaves the finished future unchanged (no second firing). -/
theorem cancel_idempotent (m : MetaRequest) :
    m.cancel.cancel = m.cancel ∧
    m.cancel.cancel.settle = m.cancel.settle ∧
    ((m.cancel.settle.1.settle.1.finished_future =
        m.cancel.settle.1.finished_future) ∧
      m.cancel.settle.1.finished_future.resolved = true) := by
  refine ⟨rfl, rfl, ?_, ?_⟩
  · show (MetaRequest.settle _).1.finished_future = _
    cases hf : m.finished_future <;>
      simp [MetaRequest.settle, MetaRequest.cancel, FutureState.set_exception,
        hf]
  · cases hf : m.finished_future <;>
      simp [MetaRequest.settle, MetaRequest.cancel, FutureState.set_exception,
        FutureState.resolved, hf]

/-- Claim C2, counterexample: constructing an `S3Client` with a negative
part size and a negative throughput target succeeds — the constructor
performs no range validation and a client is produced, contradicting the
claim that such a configuration fails with a `ConfigurationError`. -/
theorem s3ClientInit_accepts_negative :
    (s3ClientInit ⟨0⟩ "us-west-2" Option.none Option.none
        (Option.some (-1)) (Option.some 0) (Option.some (-1))
        (Option.some 0) (Option.some (-1))).isOk = true := by
  rfl

/-- Claim C2, amended: client construction performs only the isinstance
asserts of the source (discharged by typing here); it never raises
`ConfigurationError` and does no range validation: every well-typed
configuration — negative, zero or positive numeric options alike — produces
a client whose binding forwards the option values unchanged (zero reaching
the native layer, where it means "use default"). -/
theorem s3ClientInit_no_validation (bootstrap : ClientBootstrap)
    (region : String) (credential_provider : Option AwsCredentialsProvider)
    (tls_connection_options : Option TlsConnectionOptions)
    (part_size : Option Int) (connection_timeout_ms : Option Int)
    (throughput_target_gbps : Option Rat)
    (throughput_per_vip_gbps : Option Rat)
    (num_connections_per_vip : Option Int) :
    ∃ c, s3ClientInit bootstrap region credential_provider
        tls_connection_options part_size connection_timeout_ms
        throughput_target_gbps throughput_per_vip_gbps
        num_connections_per_vip = Except.ok c ∧
      c.binding.part_size = part_size ∧
      c.binding.throughput_target_gbps = throughput_target_gbps ∧
      c.binding.num_connections_per_vip = num_connections_per_vip ∧
      c.binding.connection_timeout_ms = connection_timeout_ms ∧
      c.binding.tls_connection_options = tls_connection_options ∧
      c.binding.region = region ∧
      c.shutdown_future = FutureState.pending := by
  exact ⟨_, rfl, rfl, rfl, rfl, rfl, rfl, rfl, rfl⟩

/-- Claim C3: when the terminal callback reports error code `e` on a
meta-request whose finished future is still pending, the future resolves
with the exception derived from `e` exactly when `e` is nonzero, resolves
with the success result exactly when `e` is zero, and no
`InvalidStateError` is raised. -/
theorem on_finish_resolves_iff (s : S3RequestState) (e : Nat)
    (h : s.finished_future = FutureState.pending) :
    ((S3Request.on_finish s e).1.finished_future =
        FutureState.exn (AwsException.from_code e) ↔ e ≠ 0) ∧
    ((S3Request.on_finish s e).1.finished_future =
        FutureState.result (PyVal.pystr "what?") ↔ e = 0) ∧
    (S3Request.on_finish s e).2 = Option.none := by
  by_cases he : e = 0 <;>
    simp [S3Request.on_finish, FutureState.set_exception,
      FutureState.set_result, h, he]

/-- Witness for claim C3 at a concrete request and error code 5. -/
theorem on_finish_resolves_iff_witness :
    ((S3Request.on_finish
          (s3RequestInit
            ⟨FutureState.pending,
              ⟨⟨0⟩, AwsCredentialsProvider.supplied 7, Option.none,
                "us-west-2", Option.some 0, Option.some 0, Option.some 0,
                Option.some 0, Option.some 0⟩⟩
            ⟨"GET", "/get_object_test_10MB.txt", []⟩
            AwsS3RequestType.GET_OBJECT (Option.some 0) Option.none)
          5).1.finished_future =
        FutureState.exn (AwsException.from_code 5) ↔ (5 : Nat) ≠ 0) ∧
    ((S3Request.on_finish
          (s3RequestInit
            ⟨FutureState.pending,
              ⟨⟨0⟩, AwsCredentialsProvider.supplied 7, Option.none,
                "us-west-2", Option.some 0, Option.some 0, Option.some 0,
                Option.some 0, Option.some 0⟩⟩
            ⟨"GET", "/get_object_test_10MB.txt", []⟩
            AwsS3RequestType.GET_OBJECT (Option.some 0) Option.none)
          5).1.finished_future =
        FutureState.result (PyVal.pystr "what?") ↔ (5 : Nat) = 0) ∧
    (S3Request.on_finish
        (s3RequestInit
          ⟨FutureState.pending,
            ⟨⟨0⟩, AwsCredentialsProvider.supplied 7, Option.none,
              "us-west-2", Option.some 0, Option.some 0, Option.some 0,
              Option.some 0, Option.some 0⟩⟩
          ⟨"GET", "/get_object_test_10MB.txt", []⟩
          AwsS3RequestType.GET_OBJECT (Option.some 0) Option.none)
        5).2 = Option.none :=
  on_finish_resolves_iff _ 5 rfl

/-- Claim C8: the terminal callback and the shutdown callback act on two
separate futures: `_on_finish` resolves only the finished future and leaves
the shutdown future (and every other slot) unchanged, `_on_shutdown`
resolves only the shutdown future and leaves the finished future (and every
other slot) unchanged, and construction creates both futures pending. -/
theorem futures_frame_separation :
    (∀ (s : S3RequestState) (e : Nat),
      (S3Request.on_finish s e).1.shutdown_future = s.shutdown_future ∧
      (S3Request.on_finish s e).1.on_headers_cb = s.on_headers_cb ∧
      (S3Request.on_finish s e).1.on_body_cb = s.on_body_cb ∧
      (S3Request.on_finish s e).1.client = s.client) ∧
    (∀ s : S3RequestState,
      (S3Request.on_shutdown s).1.finished_future = s.finished_future ∧
      (S3Request.on_shutdown s).1.on_headers_cb = s.on_headers_cb ∧
      (S3Request.on_shutdown s).1.on_body_cb = s.on_body_cb ∧
      (S3Request.on_shutdown s).1.client = s.client) ∧
    (∀ (client : S3ClientState) (request : HttpRequest)
        (type : AwsS3RequestType) (oh ob : Option Nat),
      (s3RequestInit client request type oh ob).finished_future =
          FutureState.pending ∧
      (s3RequestInit client request type oh ob).shutdown_future =
          FutureState.pending) := by
  refine ⟨fun s e => ?_, fun s => ?_, fun client request type oh ob => ⟨rfl, rfl⟩⟩
  · by_cases he : e = 0 <;> simp [S3Request.on_finish, he]
  · simp [S3Request.on_shutdown]

/-- Claim C9: the meta-request stores a reference to its client at
construction, and no operation of the binding — none of the four
native-invoked callbacks — ever clears or replaces it, so the client is
kept alive for the whole lifetime of the request. -/
theorem client_reference_retained :
    (∀ (client : S3ClientState) (request : HttpRequest)
        (type : AwsS3RequestType) (oh ob : Option Nat),
      (s3RequestInit client request type oh ob).client = client) ∧
    (∀ (s : S3RequestState) (e : NativeEvent),
      (processEvent s e).client = s.client) := by
  refine ⟨fun client request type oh ob => rfl, fun s e => ?_⟩
  cases e with
  | headersEvent sc hs => rfl
  | bodyEvent ch => rfl
  | finishEvent c =>
    by_cases hc : c = 0 <;> simp [processEvent, S3Request.on_finish, hc]
  | shutdownEvent => simp [processEvent, S3Request.on_shutdown]

/-- Claim C10: a client constructed with `credential_provider=None` (the
only falsy value the preceding isinstance assert admits) substitutes the
default-chain provider built from the supplied bootstrap and passes it to
the native client; a supplied provider is passed through unchanged. -/
theorem credential_provider_default_chain :
    (∀ (bootstrap : ClientBootstrap) (region : String)
        (tls : Option TlsConnectionOptions) (ps ctm : Option Int)
        (tt tv : Option Rat) (nc : Option Int),
      ∃ c, s3ClientInit bootstrap region Option.none tls ps ctm tt tv nc =
          Except.ok c ∧
        c.binding.credential_provider =
          AwsCredentialsProvider.new_default_chain bootstrap) ∧
    (∀ (bootstrap : ClientBootstrap) (region : String)
        (p : AwsCredentialsProvider) (tls : Option TlsConnectionOptions)
        (ps ctm : Option Int) (tt tv : Option Rat) (nc : Option Int),
      ∃ c, s3ClientInit bootstrap region (Option.some p) tls ps ctm tt tv
          nc = Except.ok c ∧
        c.binding.credential_provider = p) := by
  exact ⟨fun bootstrap region tls ps ctm tt tv nc => ⟨_, rfl, rfl⟩,
    fun bootstrap region p tls ps ctm tt tv nc => ⟨_, rfl, rfl⟩⟩

/-- A native event that is not the finish event leaves the finished future
of the request unchanged. -/
theorem processEvent_finished_of_not_finish (s : S3RequestState)
    (e : NativeEvent) (h : e.isFinish = false) :
    (processEvent s e).finished_future = s.finished_future := by
  cases e with
  | headersEvent sc hs => rfl
  | bodyEvent ch => rfl
  | finishEvent c => simp [NativeEvent.isFinish] at h
  | shutdownEvent => rfl

/-- Once the finished future is resolved, no native event changes it. -/
theorem processEvent_finished_of_resolved (s : S3RequestState)
    (e : NativeEvent) (h : s.finished_future.resolved = true) :
    (processEvent s e).finished_future = s.finished_future := by
  cases e with
  | headersEvent sc hs => rfl
  | bodyEvent ch => rfl
  | finishEvent c =>
    cases hf : s.finished_future with
    | pending => rw [hf] at h; simp [FutureState.resolved] at h
    | result v =>
      by_cases hc : c = 0 <;>
        simp [processEvent, S3Request.on_finish, FutureState.set_result,
          FutureState.set_exception, hf, hc]
    | exn ex =>
      by_cases hc : c = 0 <;>
        simp [processEvent, S3Request.on_finish, FutureState.set_result,
          FutureState.set_exception, hf, hc]
  | shutdownEvent => rfl

/-- Once the finished future is resolved, the terminal signal never fires
again along any remaining native event trace. -/
theorem finishFireCount_zero_of_resolved (t : List NativeEvent) :
    ∀ s : S3RequestState, s.finished_future.resolved = true →
      finishFireCount s t = 0 := by
  induction t with
  | nil => intro s _; rfl
  | cons e t ih =>
    intro s h
    have hkeep := processEvent_finished_of_resolved s e h
    simp only [finishFireCount, hkeep, h]
    rw [if_neg (by simp [h]), ih (processEvent s e) (by rw [hkeep]; exact h)]

/-- The finish callback resolves a pending finished future. -/
theorem on_finish_resolves (s : S3RequestState) (c : Nat)
    (h : s.finished_future = FutureState.pending) :
    (S3Request.on_finish s c).1.finished_future.resolved = true := by
  by_cases hc : c = 0 <;>
    simp [S3Request.on_finish, FutureState.set_result,
      FutureState.set_exception, FutureState.resolved, h, hc]

/-- Along any native event trace starting from a pending finished future,
the terminal signal fires exactly once if the trace contains a finish event
and never otherwise. -/
theorem finishFireCount_eq (t : List NativeEvent) :
    ∀ s : S3RequestState, s.finished_future = FutureState.pending →
      finishFireCount s t =
        if 0 < t.countP NativeEvent.isFinish then 1 else 0 := by
  induction t with
  | nil => intro s _; rfl
  | cons e t ih =>
    intro s h
    by_cases he : e.isFinish = true
    · cases e with
      | finishEvent c =>
        have hres :
            (processEvent s (NativeEvent.finishEvent c)).finished_future.resolved
              = true :=
          on_finish_resolves s c h
        simp only [finishFireCount]
        rw [if_pos ⟨by simp [h, FutureState.resolved], hres⟩,
          finishFireCount_zero_of_resolved t _ hres]
        simp [List.countP_cons, NativeEvent.isFinish]
      | headersEvent sc hs => simp [NativeEvent.isFinish] at he
      | bodyEvent ch => simp [NativeEvent.isFinish] at he
      | shutdownEvent => simp [NativeEvent.isFinish] at he
    · have he' : e.isFinish = false := by
        cases hb : e.isFinish
        · rfl
        · exact absurd hb he
      have hkeep := processEvent_finished_of_not_finish s e he'
      simp only [finishFireCount]
      rw [if_neg (by simp [hkeep, h, FutureState.resolved]),
        ih (processEvent s e) (by rw [hkeep]; exact h)]
      simp [List.countP_cons, he']

/-- Claim C4: for a meta-request whose finished future is pending, the
terminal signal never fires more than once along any native event trace,
and fires exactly once along every well-formed trace (the native engine,
modelled from the spec, delivers exactly one finish event regardless of how
many parts existed and how they fared). -/
theorem finished_fires_exactly_once (s : S3RequestState)
    (t : List NativeEvent) (h : s.finished_future = FutureState.pending) :
    finishFireCount s t ≤ 1 ∧
    (wellFormedNativeTrace t → finishFireCount s t = 1) := by
  rw [finishFireCount_eq t s h]
  constructor
  · split <;> simp
  · intro hw
    rw [if_pos]
    rw [wellFormedNativeTrace] at hw
    omega

/-- Witness for claim C4: a freshly constructed request processing a
concrete four-event trace with exactly one finish event. -/
theorem finished_fires_exactly_once_witness :
    finishFireCount sampleS3Request sampleNativeTrace ≤ 1 ∧
    (wellFormedNativeTrace sampleNativeTrace →
      finishFireCount sampleS3Request sampleNativeTrace = 1) :=
  finished_fires_exactly_once sampleS3Request sampleNativeTrace rfl

/-- Claim C7, counterexample: the class body of `S3Client` defines no
`shutdown` attribute — the client exposes no `shutdown()` operation; its
shutdown-complete signal is the `shutdown_future`, resolved by the
`on_shutdown` closure that the native layer invokes when the released
client finishes shutting down. -/
theorem s3Client_no_shutdown_method :
    ("shutdown" ∈ s3ClientClassAttributes) = False := by
  simp [s3ClientClassAttributes]

/-- Claim C7, amended: the client's shutdown-complete signal (resolution of
`shutdown_future` by the registered `on_shutdown` closure) fires exactly
once no matter how many times the closure is invoked: the first invocation
resolves the pending future, and Python future semantics make every further
invocation raise `InvalidStateError` without firing the signal again. -/
theorem shutdown_signal_fires_once (n : Nat) (h : 1 ≤ n) :
    shutdownSignalCount FutureState.pending n = 1 := by
  have hres : ∀ (m : Nat) (f : FutureState), f.resolved = true →
      shutdownSignalCount f m = 0 := by
    intro m
    induction m with
    | zero => intro f _; rfl
    | succ k ih =>
      intro f hf
      have hkeep : (s3ClientOnShutdown f).1 = f := by
        cases f with
        | pending => simp [FutureState.resolved] at hf
        | result v => rfl
        | exn e => rfl
      simp only [shutdownSignalCount, hkeep]
      rw [if_neg (by simp [hf]), ih f hf]
  cases n with
  | zero => omega
  | succ k =>
    simp only [shutdownSignalCount]
    rw [if_pos (by simp [s3ClientOnShutdown, FutureState.set_result,
        FutureState.resolved])]
    rw [hres k _ (by simp [s3ClientOnShutdown, FutureState.set_result,
        FutureState.resolved])]

/-- Witness for claim C7's amended theorem: three invocations of the
shutdown closure fire the signal exactly once. -/
theorem shutdown_signal_fires_once_witness :
    shutdownSignalCount FutureState.pending 3 = 1 :=
  shutdown_signal_fires_once 3 (by decide)

/-- The invocations a single delivered event produces are exactly the ones
`eventInvocation` prescribes: present callbacks are invoked with the event's
data, omitted callbacks discard the event. -/
theorem deliverEvent_invocations (cbs : ResultReportingCallbacks)
    (f : FutureState) (e : ReportEvent) :
    (deliverEvent cbs f e).2.2 = (eventInvocation cbs e).toList := by
  cases e with
  | headersEvent sc hs =>
    cases hc : cbs.on_headers <;> simp [deliverEvent, eventInvocation, hc]
  | bodyEvent ch =>
    cases hc : cbs.on_body <;> simp [deliverEvent, eventInvocation, hc]
  | progressEvent p =>
    cases hc : cbs.on_progress <;> simp [deliverEvent, eventInvocation, hc]
  | finishEvent c =>
    by_cases hc : c = 0 <;>
      simp [deliverEvent, eventInvocation, FutureState.set_result,
        FutureState.set_exception, hc]

/-- A non-terminal report event raises no error and leaves the finished
future untouched. -/
theorem deliverEvent_not_finish (cbs : ResultReportingCallbacks)
    (f : FutureState) (e : ReportEvent) (h : e.isFinish = false) :
    (deliverEvent cbs f e).1 = f ∧ (deliverEvent cbs f e).2.1 = Option.none := by
  cases e with
  | headersEvent sc hs => cases cbs.on_headers <;> simp [deliverEvent, *]
  | bodyEvent ch => cases cbs.on_body <;> simp [deliverEvent, *]
  | progressEvent p => cases cbs.on_progress <;> simp [deliverEvent, *]
  | finishEvent c => simp [ReportEvent.isFinish] at h

/-- A trace without a terminal event is delivered without raising an
error, whatever the state of the finished future. -/
theorem deliverTrace_no_errors_of_no_finish (cbs : ResultReportingCallbacks)
    (t : List ReportEvent) :
    ∀ f : FutureState, t.countP ReportEvent.isFinish = 0 →
      (deliverTrace cbs f t).2.1 = [] := by
  induction t with
  | nil => intro f _; rfl
  | cons e t ih =>
    intro f h
    have he : e.isFinish = false := by
      by_cases hb : e.isFinish = true
      · simp [List.countP_cons, hb] at h
      · simpa using hb
    have hd := deliverEvent_not_finish cbs f e he
    simp only [deliverTrace, hd.2, Option.toList, List.nil_append]
    exact ih _ (by simpa [List.countP_cons, he] using h)

/-- A trace with at most one terminal event, delivered from a pending
finished future, raises no error. -/
theorem deliverTrace_no_errors (cbs : ResultReportingCallbacks)
    (t : List ReportEvent) :
    ∀ f : FutureState, f = FutureState.pending →
      t.countP ReportEvent.isFinish ≤ 1 →
      (deliverTrace cbs f t).2.1 = [] := by
  induction t with
  | nil => intro f _ _; rfl
  | cons e t ih =>
    intro f hf hc
    by_cases he : e.isFinish = true
    · cases e with
      | finishEvent c =>
        have hnoerr : (deliverEvent cbs f (ReportEvent.finishEvent c)).2.1 =
            Option.none := by
          by_cases h0 : c = 0 <;>
            simp [deliverEvent, FutureState.set_result,
              FutureState.set_exception, hf, h0]
        simp only [deliverTrace, hnoerr, Option.toList, List.nil_append]
        refine deliverTrace_no_errors_of_no_finish cbs t _ ?_
        rw [List.countP_cons] at hc
        simp only [ReportEvent.isFinish, if_true] at hc
        omega
      | headersEvent sc hs => simp [ReportEvent.isFinish] at he
      | bodyEvent ch => simp [ReportEvent.isFinish] at he
      | progressEvent p => simp [ReportEvent.isFinish] at he
    · have he' : e.isFinish = false := by simpa using he
      have hd := deliverEvent_not_finish cbs f e he'
      simp only [deliverTrace, hd.2, Option.toList, List.nil_append]
      exact ih _ (by rw [hd.1]; exact hf)
        (by simpa [List.countP_cons, he'] using hc)

/-- Delivering a trace performs exactly the invocations prescribed by
`eventInvocation`, in trace order, whatever the future's state. -/
theorem deliverTrace_invocations (cbs : ResultReportingCallbacks)
    (t : List ReportEvent) :
    ∀ f : FutureState,
      (deliverTrace cbs f t).2.2 = t.filterMap (eventInvocation cbs) := by
  induction t with
  | nil => intro f; rfl
  | cons e t ih =>
    intro f
    simp only [deliverTrace, deliverEvent_invocations, ih]
    cases h : eventInvocation cbs e <;>
      simp [List.filterMap_cons, h, Option.toList]

/-- The invocation an event produces has the event's position in the
delivery ordering. -/
theorem eventInvocation_rank (cbs : ResultReportingCallbacks)
    (e : ReportEvent) (inv : UserInvocation)
    (h : eventInvocation cbs e = Option.some inv) :
    inv.rank = e.rank := by
  cases e with
  | headersEvent sc hs =>
    cases hc : cbs.on_headers <;> simp [eventInvocation, hc] at h <;>
      simp [← h, UserInvocation.rank, ReportEvent.rank]
  | bodyEvent ch =>
    cases hc : cbs.on_body <;> simp [eventInvocation, hc] at h <;>
      simp [← h, UserInvocation.rank, ReportEvent.rank]
  | progressEvent p =>
    cases hc : cbs.on_progress <;> simp [eventInvocation, hc] at h <;>
      simp [← h, UserInvocation.rank, ReportEvent.rank]
  | finishEvent c =>
    simp [eventInvocation] at h
    simp [← h, UserInvocation.rank, ReportEvent.rank]

/-- Claim C5: the submission interface's Result-Reporting capability has
three optional callbacks (`on_headers`, `on_body`, `on_progress`), each
independently nullable: for every callback configuration — any subset may
be omitted — and every event trace respecting the ordering contract,
delivery raises no error, omitted callbacks have their events silently
discarded while supplied callbacks are invoked with their events in trace
order, and the delivered sequence respects the contract's order (header,
then body chunks, then progress, then terminal). -/
theorem result_reporting_optional (cbs : ResultReportingCallbacks)
    (t : List ReportEvent) (h : ContractOrdered t) : DeliverySpec cbs t := by
  refine ⟨?_, deliverTrace_invocations cbs t FutureState.pending, ?_⟩
  · exact deliverTrace_no_errors cbs t FutureState.pending rfl
      (by rw [h.2.2])
  · rw [deliverTrace_invocations cbs t FutureState.pending]
    exact List.Pairwise.filterMap (eventInvocation cbs)
      (fun a a' hr b hb b' hb' => by
        rw [eventInvocation_rank cbs a b hb,
          eventInvocation_rank cbs a' b' hb']
        exact hr)
      h.1

/-- Witness for claim C5: a configuration omitting `on_body` delivering a
concrete contract-ordered four-event trace. -/
theorem result_reporting_optional_witness :
    ContractOrdered sampleReportTrace ∧
    DeliverySpec sampleCallbacks sampleReportTrace :=
  ⟨by unfold ContractOrdered; decide,
    result_reporting_optional sampleCallbacks sampleReportTrace
      (by unfold ContractOrdered; decide)⟩

/-- The planned part count is always positive. -/
theorem numParts_pos (S P : Nat) (hP : 0 < P) : 0 < numParts S P := by
  unfold numParts
  split
  · exact Nat.one_pos
  · exact Nat.div_pos (by omega) hP

/-- For a nonempty object the ceiling division defining the part count
rewrites to floor division of the predecessor. -/
theorem numParts_eq_succ (S P : Nat) (hP : 0 < P) (hS : 0 < S) :
    numParts S P = (S - 1) / P + 1 := by
  unfold numParts
  rw [if_neg (by omega)]
  have h : S + P - 1 = (S - 1) + P := by omega
  rw [h, Nat.add_div_right _ hP]

/-- The planned parts reach at least up to the object size. -/
theorem le_numParts_mul (S P : Nat) (hP : 0 < P) : S ≤ numParts S P * P := by
  by_cases hS : S = 0
  · simp [hS]
  · rw [numParts_eq_succ S P hP (by omega)]
    have h := Nat.lt_div_mul_add (a := S - 1) hP
    have hm : ((S - 1) / P + 1) * P = (S - 1) / P * P + P := by ring
    omega

/-- All parts but the last start strictly below the object size. -/
theorem pred_numParts_mul_lt (S P : Nat) (hP : 0 < P) (hS : 0 < S) :
    (numParts S P - 1) * P < S := by
  rw [numParts_eq_succ S P hP hS, Nat.succ_sub_one]
  have h := Nat.div_mul_le_self (S - 1) P
  omega

/-- Length of the final planned part, as prescribed by the spec: the
remainder of the object size by the part size, or a full part when the part
size divides a positive object size. -/
theorem last_part_length (S P : Nat) (hP : 0 < P) (hS : 0 < S) :
    S - ((S - 1) / P) * P = if S % P = 0 then P else S % P := by
  have hqr := Nat.div_add_mod S P
  have hr : S % P < P := Nat.mod_lt _ hP
  by_cases h0 : S % P = 0
  · rw [if_pos h0]
    have hPS : P ≤ S := by
      by_contra hc
      have hm := Nat.mod_eq_of_lt (show S < P by omega)
      omega
    have hq1 : 0 < S / P := Nat.div_pos hPS hP
    have hq2 : P * (S / P) = P * (S / P - 1) + P := by
      have h1 : P * ((S / P - 1) + 1) = P * (S / P - 1) + P := by ring
      have hqa : S / P - 1 + 1 = S / P := by omega
      rw [← h1, hqa]
    have hSa : S = P * (S / P - 1) + P := by omega
    have hpred : S - 1 = P * (S / P - 1) + (P - 1) := by omega
    have hd1 : (P * (S / P - 1) + (P - 1)) / P = (S / P - 1) + (P - 1) / P :=
      Nat.mul_add_div hP _ _
    have hd2 : (P - 1) / P = 0 := Nat.div_eq_of_lt (by omega)
    have hdiv : (S - 1) / P = S / P - 1 := by
      rw [hpred, hd1]
      omega
    rw [hdiv]
    have hc2 : (S / P - 1) * P = P * (S / P - 1) := by ring
    omega
  · rw [if_neg h0]
    have hpred : S - 1 = P * (S / P) + (S % P - 1) := by omega
    have hd1 : (P * (S / P) + (S % P - 1)) / P = S / P + (S % P - 1) / P :=
      Nat.mul_add_div hP _ _
    have hd2 : (S % P - 1) / P = 0 := Nat.div_eq_of_lt (by omega)
    have hdiv : (S - 1) / P = S / P := by
      rw [hpred, hd1]
      omega
    rw [hdiv]
    have := Nat.mul_comm (S / P) P
    omega

/-- Claim C6: for every object size `S` and part size `P > 0` the Part
Scheduler's planned ranges partition `[0,S)` exactly — starting at 0,
contiguous and ascending with no gaps or overlaps, ending at `S`, every
part of length at most `P` and the final part of length `S mod P` (or `P`
when `P` divides `S` and `S > 0`) — and in particular a 12 MiB object with
5 MiB part size yields exactly the three parts of the spec's scenario. -/
theorem part_scheduler_partition (S P : Nat) (hP : 0 < P) :
    SchedulerSpec S P ∧
    planParts 12582912 5242880 =
      [(0, 5242880), (5242880, 10485760), (10485760, 12582912)] := by
  refine ⟨⟨rfl, numParts_pos S P hP, by simp [partStart], ?_, ?_, ?_, ?_, ?_, ?_⟩, by decide⟩
  · -- contiguity: each part ends where the next begins
    intro i hi
    by_cases hS : S = 0
    · rw [hS] at hi; simp [numParts] at hi
    · rw [numParts_eq_succ S P hP (by omega)] at hi
      have hle : (i + 1) * P ≤ (S - 1) / P * P :=
        Nat.mul_le_mul_right P (by omega)
      have hfl := Nat.div_mul_le_self (S - 1) P
      unfold partEnd partStart
      exact Nat.min_eq_left (by omega)
  · -- the last part ends at the object size
    have hn := numParts_pos S P hP
    have hle := le_numParts_mul S P hP
    unfold partEnd
    have h1 : numParts S P - 1 + 1 = numParts S P := by omega
    rw [h1]
    exact Nat.min_eq_right hle
  · -- parts are well formed: start at or before their end
    intro i hi
    unfold partStart partEnd
    refine Nat.le_min.mpr ⟨Nat.mul_le_mul_right P (by omega), ?_⟩
    by_cases hS : S = 0
    · have hi0 : i = 0 := by rw [hS] at hi; simpa [numParts] using hi
      rw [hi0, hS]
      simp
    · rw [numParts_eq_succ S P hP (by omega)] at hi
      have hle : i * P ≤ (S - 1) / P * P := Nat.mul_le_mul_right P (by omega)
      have hfl := Nat.div_mul_le_self (S - 1) P
      omega
  · -- each part has length at most P
    intro i _
    unfold partStart partEnd
    have hm : (i + 1) * P = i * P + P := by ring
    have h := Nat.min_le_left ((i + 1) * P) S
    omega
  · -- the final part's length
    by_cases hS : S = 0
    · rw [hS]
      simp [numParts, partStart, partEnd]
    · have hn1 : numParts S P - 1 = (S - 1) / P := by
        rw [numParts_eq_succ S P hP (by omega)]
        exact Nat.succ_sub_one _
      have hend : partEnd S P (numParts S P - 1) = S := by
        have hn := numParts_pos S P hP
        have hle := le_numParts_mul S P hP
        unfold partEnd
        have h1 : numParts S P - 1 + 1 = numParts S P := by omega
        rw [h1]
        exact Nat.min_eq_right hle
      rw [hend, hn1]
      unfold partStart
      rw [last_part_length S P hP (by omega)]
      have : (S % P = 0 ∧ 0 < S) ↔ S % P = 0 := by
        constructor
        · exact fun h => h.1
        · exact fun h => ⟨h, by omega⟩
      by_cases h0 : S % P = 0
      · rw [if_pos h0, if_pos ⟨h0, by omega⟩]
      · rw [if_neg h0, if_neg (fun hx => h0 hx.1)]
  · -- exact cover: every offset below S lies in exactly one part
    intro x hx
    have hS : 0 < S := by omega
    refine ⟨x / P, ?_, ?_, ?_, ?_⟩
    · rw [numParts_eq_succ S P hP hS]
      have h := Nat.div_le_div_right (c := P) (show x ≤ S - 1 by omega)
      omega
    · exact Nat.div_mul_le_self x P
    · unfold partEnd
      refine Nat.lt_min.mpr ⟨?_, hx⟩
      have h := Nat.lt_div_mul_add (a := x) hP
      have hm : (x / P + 1) * P = x / P * P + P := by ring
      omega
    · intro j _ hj1 hj2
      unfold partStart at hj1
      unfold partEnd at hj2
      have hj3 : x < (j + 1) * P := lt_of_lt_of_le hj2 (Nat.min_le_left _ _)
      exact (Nat.div_eq_of_lt_le hj1 hj3).symm

/-- Witness for claim C6: the spec's scenario, a 12 MiB object with 5 MiB
part size. -/
theorem part_scheduler_partition_witness :
    0 < 5242880 ∧
    (SchedulerSpec 12582912 5242880 ∧
      planParts 12582912 5242880 =
        [(0, 5242880), (5242880, 10485760), (10485760, 12582912)]) :=
  ⟨by decide, part_scheduler_partition 12582912 5242880 (by decide)⟩
